import Mathlib

/-!
# Verification of the winit + msedge-webview2 builder library

Shallow embedding of `src/lib.rs` (crate `webviewbuilder_win`) and of the
message types declared in `example/src/main.rs`.  Native engine calls
(WebView2 controller / webview operations) are modelled as effect tokens
recorded in the order the code issues them; their own success or failure is
modelled by explicit outcome booleans where the code's control flow depends
on it (the asynchronous controller-creation continuation).
-/

namespace WebviewBuilderWin

/-! ## Message contract (example/src/main.rs)

`MsgFromWebView` and `MsgToWebView` are the example's declared message
enums, both `#[serde(tag = "type")]` with unit variants only. -/

/-- Inbound message enum of the example (`enum MsgFromWebView`). -/
inductive MsgFromWebView
  | HelloToServer
  | OpenOptionalWindow
deriving DecidableEq, Repr

/-- Outbound message enum of the example (`enum MsgToWebView`). -/
inductive MsgToWebView
  | HelloToWebview
deriving DecidableEq, Repr

/-- The serde variant name used in the `"type"` discriminant field. -/
def MsgFromWebView.variantName : MsgFromWebView → String
  | .HelloToServer => "HelloToServer"
  | .OpenOptionalWindow => "OpenOptionalWindow"

/-- The serde variant name used in the `"type"` discriminant field. -/
def MsgToWebView.variantName : MsgToWebView → String
  | .HelloToWebview => "HelloToWebview"

/-- Source `serde_json::to_string` on an internally-tagged (`tag = "type"`) unit
variant: the object `{"type":"<VariantName>"}` (no spaces, serde_json
compact output). -/
def serializeMsgFromWebView (m : MsgFromWebView) : String :=
  "\x7b\"type\":\"" ++ m.variantName ++ "\"\x7d"

/-- Source `serde_json::to_string` for the outbound enum, same wire format. -/
def serializeMsgToWebView (m : MsgToWebView) : String :=
  "\x7b\"type\":\"" ++ m.variantName ++ "\"\x7d"

/-! ### Wire-format parsing for the round-trip law

The parser below is a restricted model of
`serde_json::from_str::<MsgFromWebView>`: a recursive-descent parser for
JSON objects of plain (escape-free) string members, with the variant
selected by the `"type"` field.  On the exact compact strings
`serde_json::to_string` produces for the declared variants — the only
inputs the round-trip law exercises — it agrees with serde.  It is not a
complete model of serde's accept-set on other inputs (serde also accepts
objects with extra non-string members and escaped string forms, and
rejects objects with a duplicated tag field), so nothing here quantifies
over the fail-set of this parser; the message-received closure is modelled
separately by the outcome of the external deserializer. -/

/-- JSON insignificant whitespace. -/
def isWsChar (c : Char) : Bool :=
  c = ' ' || c = '\n' || c = '\t' || c = '\r'

/-- Drop leading JSON whitespace. -/
def skipWs : List Char → List Char
  | [] => []
  | c :: rest => if isWsChar c then skipWs rest else c :: rest

/-- Parse the body of a JSON string literal after the opening quote, up to
the closing quote.  Escape sequences are not part of the modelled grammar
(no declared variant name contains one). -/
def parseStringBody : List Char → Option (List Char × List Char)
  | [] => none
  | c :: rest =>
    if c = '\"' then some ([], rest)
    else if c = '\\' then none
    else (parseStringBody rest).map (fun p => (c :: p.1, p.2))

/-- Parse a JSON string literal (opening quote included). -/
def parseStringLit (cs : List Char) : Option (String × List Char) :=
  match cs with
  | '\"' :: rest => (parseStringBody rest).map (fun p => (String.mk p.1, p.2))
  | _ => none

/-- Parse one or more `"key":"value"` members followed by `\x7d`, returning
the members and the remaining input.  `fuel` bounds the recursion. -/
def parseMembers : Nat → List Char → Option (List (String × String) × List Char)
  | 0, _ => none
  | fuel + 1, cs =>
    match parseStringLit (skipWs cs) with
    | none => none
    | some (key, rest1) =>
      match skipWs rest1 with
      | ':' :: rest2 =>
        match parseStringLit (skipWs rest2) with
        | none => none
        | some (val, rest3) =>
          match skipWs rest3 with
          | ',' :: rest4 =>
            (parseMembers fuel rest4).map (fun p => ((key, val) :: p.1, p.2))
          | '\x7d' :: rest4 => some ([(key, val)], rest4)
          | _ => none
      | _ => none

/-- Parse a whole string as a JSON object of string-valued members. -/
def parseJsonStringObject (s : String) : Option (List (String × String)) :=
  match skipWs s.toList with
  | '\x7b' :: rest =>
    match skipWs rest with
    | '\x7d' :: rest2 => if (skipWs rest2).isEmpty then some [] else none
    | _ =>
      match parseMembers (rest.length + 1) rest with
      | some (fields, rem) => if (skipWs rem).isEmpty then some fields else none
      | none => none
  | _ => none

/-- First value bound to `key` in a member list (serde matches the tag on
its first occurrence). -/
def lookupField (key : String) : List (String × String) → Option String
  | [] => none
  | (k, v) :: rest => if k = key then some v else lookupField key rest

/-- Restricted model of `serde_json::from_str::<MsgFromWebView>` (see the
section comment): decode the tagged string against the declared inbound
type, selecting the variant by the `"type"` discriminant.  Faithful to
serde on the serializer's outputs; used only for the round-trip law. -/
def parseMsgFromWebView (s : String) : Option MsgFromWebView :=
  match parseJsonStringObject s with
  | none => none
  | some fields =>
    match lookupField "type" fields with
    | some t =>
      if t = "HelloToServer" then some MsgFromWebView.HelloToServer
      else if t = "OpenOptionalWindow" then some MsgFromWebView.OpenOptionalWindow
      else none
    | none => none

/-- The `add_web_message_received` closure body (lib.rs lines 268-284).
The closure retrieves the message string and matches on the result of
`serde_json::from_str::<MsgFromWebView>`; serde_json is an external crate
(like the webview2 calls elsewhere in this file), so it is modelled by its
outcome, the `parsed` argument: `some` is serde's `Ok(msg)`, `none` is
serde's `Err(_)`.  On `some` the message is delivered to the event-loop
proxy, on `none` it is logged and dropped.  The returned list is the
sequence of messages passed to `pass_to_event_loop_proxy`; the closure
itself returns `Ok(())` on both branches. -/
def onWebMessageReceived (parsed : Option MsgFromWebView) :
    Except Unit (List MsgFromWebView) :=
  match parsed with
  | some msg => .ok [msg]
  | none => .ok []

/-! ## Core data model (src/lib.rs) -/

/-- Source `enum ShowWebview` (lib.rs lines 26-31): the visibility policy. -/
inductive ShowWebview
  | Immediately
  | OnNavigationCompleted
  | OnContentLoading
deriving DecidableEq, Repr

/-- Source `enum Error` (lib.rs lines 37-44).  The payloads of the wrapping
variants (underlying serde / webview2 / OS errors) carry no information the
library branches on, so they are dropped here. -/
inductive Error
  | ControllerNotCreated
  | WebviewNotShown
  | SerializationError
  | WebView2Error
  | WindowBuildError
deriving DecidableEq, Repr

/-- winit window identity (opaque; only equality is used). -/
abbrev WindowId := Nat

/-- winit `PhysicalSize<u32>`: both fields are unsigned 32-bit. -/
structure PhysicalSize where
  width : Nat
  height : Nat
deriving DecidableEq, Repr

/-- winit `PhysicalPosition<i32>` (payload of `Moved`; the library ignores
its value). -/
structure PhysicalPosition where
  x : Int
  y : Int
deriving DecidableEq, Repr

/-- The winit `WindowEvent` cases the library inspects, plus `Other` for
every event it does not (the library treats all of those alike). -/
inductive WindowEvent
  | Moved (pos : PhysicalPosition)
  | Resized (size : PhysicalSize)
  | CloseRequested
  | Other
deriving DecidableEq, Repr

/-- winapi `RECT`: four `LONG` (signed 32-bit) fields. -/
structure RECT where
  left : Int
  top : Int
  right : Int
  bottom : Int
deriving DecidableEq, Repr

/-- Rust `u32 as i32`: reinterpret the 32-bit pattern as two's-complement
signed.  The winit size fields are `u32`, the `RECT` fields `i32`. -/
def i32ofU32 (n : Nat) : Int :=
  let r := n % 4294967296
  if r < 2147483648 then (r : Int) else (r : Int) - 4294967296

/-- Native WebView2 controller operations the wrapper issues; recorded as a
trace in the order the code calls them. -/
inductive ControllerCall
  | notifyParentWindowPositionChanged
  | putBounds (r : RECT)
deriving DecidableEq, Repr

/-- Native WebView2 webview operations issued by `send_msg`. -/
inductive WebviewCall
  | postWebMessageAsJson (s : String)
deriving DecidableEq, Repr

/-- The winit window produced by `build_with_proxy`: its identity and the
visibility it was created with (lib.rs line 190:
`.with_visible(self.show_on == ShowWebview::Immediately)` overrides any
visibility of the user-supplied `WindowBuilder`). -/
structure Window where
  id : WindowId
  visible : Bool
deriving DecidableEq, Repr

/-- Source `struct WebViewWrapper` (lib.rs lines 313-322): the eager handle.  The
controller slot `Rc<RefCell<Option<Controller>>>` starts `None` and is
populated by the asynchronous continuation; the controller value itself is
opaque to the claims, so the slot is `Option Unit`. -/
structure WebViewWrapper where
  controller : Option Unit
  window : Window
deriving DecidableEq, Repr

/-- The optional window parameters held by the builder (`WindowBuilder`);
only presence matters to the claims, the parameters themselves are opaque
apart from the title default. -/
structure WindowBuilderParams where
  title : String
deriving DecidableEq, Repr

/-- Source `struct WebViewBuilder` (lib.rs lines 68-86), with the two one-shot
closures represented by their presence (the continuation model carries
their outcomes separately). -/
structure WebViewBuilder where
  window_builder : Option WindowBuilderParams
  show_on : ShowWebview
  settings_fn : Bool
  webview_fn : Bool
deriving DecidableEq, Repr

/-- Source `WebViewBuilder::new` (lib.rs lines 93-103): no window builder, show on
navigation completed, no closures. -/
def WebViewBuilder.new : WebViewBuilder :=
  { window_builder := none
    show_on := ShowWebview.OnNavigationCompleted
    settings_fn := false
    webview_fn := false }

/-- Source `WebViewBuilder::build_with_proxy`, synchronous part (lib.rs lines
181-299): build the winit window (visible iff the policy is `Immediately`),
construct the wrapper with an empty controller slot, schedule the
asynchronous continuation, and return.  `windowBuildOk` is the outcome of
the toolkit's window construction, `freshId` the identity of the window it
creates.  Failures inside the later continuation do not appear here. -/
def WebViewBuilder.build_with_proxy (b : WebViewBuilder) (freshId : WindowId)
    (windowBuildOk : Bool) : Except Error WebViewWrapper :=
  if windowBuildOk then
    .ok { controller := none
          window := { id := freshId, visible := b.show_on = ShowWebview.Immediately } }
  else
    .error Error.WindowBuildError

/-! ## Eager handle operations -/

/-- Source `WebViewWrapper::send_msg` (lib.rs lines 329-337): if the controller is
present, serialize the message and post it; if absent, fall through to
`Ok(())` without doing anything.  The returned list is the trace of webview
calls issued. -/
def WebViewWrapper.send_msg (w : WebViewWrapper) (m : MsgToWebView) :
    Except Error (List WebviewCall) :=
  match w.controller with
  | some _ => .ok [WebviewCall.postWebMessageAsJson (serializeMsgToWebView m)]
  | none => .ok []

/-- Source `WebViewWrapper::is_window` (lib.rs lines 340-342). -/
def WebViewWrapper.is_window (w : WebViewWrapper) (window_id : WindowId) : Bool :=
  window_id = w.window.id

/-- Source `WebViewWrapper::webview_with` (lib.rs lines 345-354): run the callback
against the webview if the controller exists (`.ok`), otherwise
`Err(ControllerNotCreated)`. -/
def WebViewWrapper.webview_with (w : WebViewWrapper) : Except Error Unit :=
  match w.controller with
  | some _ => .ok ()
  | none => .error Error.ControllerNotCreated

/-- Source `WebViewWrapper::handle_window_event` (lib.rs lines 360-386): no-op for
a foreign window id; `Err(ControllerNotCreated)` when the controller slot
is empty; otherwise `Moved` notifies the controller of the position change,
`Resized` puts bounds `(0, 0, width as i32, height as i32)`, and every
other event does nothing.  The returned list is the trace of controller
calls issued. -/
def WebViewWrapper.handle_window_event (w : WebViewWrapper) (t : WindowEvent)
    (window_id : WindowId) : Except Error (List ControllerCall) :=
  if ¬ w.is_window window_id then
    .ok []
  else
    match w.controller with
    | none => .error Error.ControllerNotCreated
    | some _ =>
      match t with
      | WindowEvent.Moved _ => .ok [ControllerCall.notifyParentWindowPositionChanged]
      | WindowEvent.Resized s =>
          .ok [ControllerCall.putBounds
            { left := 0, top := 0, right := i32ofU32 s.width, bottom := i32ofU32 s.height }]
      | _ => .ok []

/-! ## The asynchronous controller-creation continuation

`build_with_proxy` schedules `webview2::EnvironmentBuilder::new().build(...)`
whose nested closures (lib.rs lines 206-296) run after `build` has
returned.  Every fallible native step is given an outcome boolean; a `?` in
the code aborts the continuation at that step.  The wrapper (and so the
weak references the closure upgrades) is assumed alive, as in the claims. -/

/-- Outcomes of the fallible steps of the continuation, in source order.
`envOk` is `env?` in the outer closure, `hostOk` is `host?` in
`create_controller`'s closure. -/
structure ContEnv where
  envOk : Bool
  hostOk : Bool
  getWebviewOk : Bool
  getSettingsOk : Bool
  settingsFnOk : Bool
  putBoundsOk : Bool
  addTitleChangedOk : Bool
  addNavigationCompletedOk : Bool
  addContentLoadingOk : Bool
  addCloseRequestedOk : Bool
  addWebMessageOk : Bool
  webviewFnOk : Bool
deriving DecidableEq, Repr

/-- What the continuation has done by the time it finishes (normally or by
an aborting `?`).  `slot` is the shared controller slot of the wrapper. -/
structure ContResult where
  slot : Option Unit
  settingsApplied : Bool
  boundsApplied : Bool
  titleObserver : Bool
  showObserver : Bool
  closeObserver : Bool
  messageObserver : Bool
  initFnRun : Bool
deriving DecidableEq, Repr

/-- The continuation state before anything has happened. -/
def ContResult.initial : ContResult :=
  { slot := none, settingsApplied := false, boundsApplied := false
    titleObserver := false, showObserver := false, closeObserver := false
    messageObserver := false, initFnRun := false }

/-- Steps of the continuation after the show-policy registration
(lib.rs lines 258-295): close-requested observer, web-message observer,
user init function, then slot assignment as the very last step. -/
def runContinuationTail (webviewPresent : Bool) (e : ContEnv) (r : ContResult) : ContResult :=
  if ¬ e.addCloseRequestedOk then r
  else
    let r5 := { r with closeObserver := true }
    if ¬ e.addWebMessageOk then r5
    else
      let r6 := { r5 with messageObserver := true }
      if webviewPresent ∧ ¬ e.webviewFnOk then r6
      else
        { r6 with initFnRun := webviewPresent, slot := some () }

/-- The continuation body (lib.rs lines 206-296) for a builder with policy
`showOn`, settings closure present iff `settingsPresent`, webview init
closure present iff `webviewPresent`: each failing step aborts, leaving the
effects achieved so far and the controller slot empty; the slot is assigned
only as the very last step (lines 290-293). -/
def runContinuation (showOn : ShowWebview) (settingsPresent webviewPresent : Bool)
    (e : ContEnv) : ContResult :=
  if ¬ e.envOk then ContResult.initial
  else if ¬ e.hostOk then ContResult.initial
  else if ¬ e.getWebviewOk then ContResult.initial
  else if settingsPresent ∧ ¬ e.getSettingsOk then ContResult.initial
  else if settingsPresent ∧ ¬ e.settingsFnOk then ContResult.initial
  else
    let r1 := { ContResult.initial with settingsApplied := settingsPresent }
    if ¬ e.putBoundsOk then r1
    else
      let r2 := { r1 with boundsApplied := true }
      if ¬ e.addTitleChangedOk then r2
      else
        let r3 := { r2 with titleObserver := true }
        match showOn with
        | ShowWebview.Immediately => runContinuationTail webviewPresent e r3
        | ShowWebview.OnNavigationCompleted =>
            if ¬ e.addNavigationCompletedOk then r3
            else runContinuationTail webviewPresent e { r3 with showObserver := true }
        | ShowWebview.OnContentLoading =>
            if ¬ e.addContentLoadingOk then r3
            else runContinuationTail webviewPresent e { r3 with showObserver := true }

/-- Whether the show-policy registration sets the deferred-visibility
observer: never for `Immediately` (visibility was set at window
construction), always for the two deferred policies. -/
def expectedShowObserver : ShowWebview → Bool
  | ShowWebview.Immediately => false
  | _ => true

/-- The steps of `runContinuationTail` all succeed (the init-function step
only when that closure is present). -/
def TailOkP (wp : Bool) (e : ContEnv) : Prop :=
  e.addCloseRequestedOk = true ∧ e.addWebMessageOk = true ∧ (wp = true → e.webviewFnOk = true)

/-- All the fallible steps the continuation actually runs succeed (the
settings/init steps only when the corresponding closure is present, the
show registration only for the two deferred policies). -/
def ContAllOkP (showOn : ShowWebview) (sp wp : Bool) (e : ContEnv) : Prop :=
  e.envOk = true ∧ e.hostOk = true ∧ e.getWebviewOk = true ∧
  (sp = true → e.getSettingsOk = true ∧ e.settingsFnOk = true) ∧
  e.putBoundsOk = true ∧ e.addTitleChangedOk = true ∧
  (showOn = ShowWebview.OnNavigationCompleted → e.addNavigationCompletedOk = true) ∧
  (showOn = ShowWebview.OnContentLoading → e.addContentLoadingOk = true) ∧
  e.addCloseRequestedOk = true ∧ e.addWebMessageOk = true ∧
  (wp = true → e.webviewFnOk = true)

/-- Source `build` followed by the deferred continuation: the synchronous result
handed to the caller of `build`, paired with the asynchronous continuation
outcome that becomes observable later. -/
def buildAndContinuation (b : WebViewBuilder) (freshId : WindowId) (e : ContEnv) :
    Except Error WebViewWrapper × ContResult :=
  (b.build_with_proxy freshId true,
   runContinuation b.show_on b.settings_fn b.webview_fn e)

/-! ## Optional (lazy) webview slot -/

/-- Source `struct WebViewOptional` (lib.rs lines 389-398): a stored builder and a
shared slot holding at most one live wrapper.  (`instance` is a Lean
keyword, hence the underscore.) -/
structure WebViewOptional where
  builder : WebViewBuilder
  instance_ : Option WebViewWrapper
deriving DecidableEq, Repr

/-- Source `WebViewOptional::new` (lib.rs lines 407-414): starts with an empty
instance slot (the Closed state). -/
def WebViewOptional.new (builder : WebViewBuilder) : WebViewOptional :=
  { builder := builder, instance_ := none }

/-- Source `WebViewOptional::send_msg` (lib.rs lines 416-423). -/
def WebViewOptional.send_msg (o : WebViewOptional) (m : MsgToWebView) :
    Except Error (List WebviewCall) :=
  match o.instance_ with
  | some v => v.send_msg m
  | none => .error Error.WebviewNotShown

/-- Source `WebViewOptional::is_window` (lib.rs lines 426-433): delegates when
Open, returns `false` when Closed. -/
def WebViewOptional.is_window (o : WebViewOptional) (window_id : WindowId) : Bool :=
  match o.instance_ with
  | some v => v.is_window window_id
  | none => false

/-- Source `WebViewOptional::webview_with` (lib.rs lines 436-443). -/
def WebViewOptional.webview_with (o : WebViewOptional) : Except Error Unit :=
  match o.instance_ with
  | some v => v.webview_with
  | none => .error Error.WebviewNotShown

/-- Observable effect of `show`. -/
inductive ShowEffect
  | raisedExistingWindow
  | builtNewWebview
deriving DecidableEq, Repr

/-- Source `WebViewOptional::show` (lib.rs lines 445-463): if Open, call
`SetForegroundWindow` on the existing window and change nothing; if Closed,
clone the stored builder, run `build_with_proxy` and unwrap it into the
slot.  `freshId` is the window identity the toolkit would assign to a newly
built window; the unwrap's panic branch (window-construction failure) is
outside the model, so window construction is taken as succeeding. -/
def WebViewOptional.show (o : WebViewOptional) (freshId : WindowId) :
    WebViewOptional × ShowEffect :=
  match o.instance_ with
  | some _ => (o, ShowEffect.raisedExistingWindow)
  | none =>
    match o.builder.build_with_proxy freshId true with
    | .ok w => ({ o with instance_ := some w }, ShowEffect.builtNewWebview)
    | .error _ => (o, ShowEffect.builtNewWebview)

/-- Source `WebViewOptional::handle_window_event` (lib.rs lines 465-482): error
when Closed; when Open, a `CloseRequested` for the inner window empties the
slot and returns `Ok` without forwarding; every other case delegates to the
inner wrapper.  Returns the new state and the result. -/
def WebViewOptional.handle_window_event (o : WebViewOptional) (event : WindowEvent)
    (window_id : WindowId) : WebViewOptional × Except Error (List ControllerCall) :=
  match o.instance_ with
  | none => (o, .error Error.WebviewNotShown)
  | some v =>
    if v.is_window window_id ∧ event = WindowEvent.CloseRequested then
      ({ o with instance_ := none }, .ok [])
    else
      (o, v.handle_window_event event window_id)

/-! ## Helper lemmas -/

/-- The unsigned-to-signed reinterpretation is the identity below `2^31`. -/
theorem i32ofU32_eq_of_lt {n : Nat} (h : n < 2147483648) : i32ofU32 n = (n : Int) := by
  unfold i32ofU32
  have hm : n % 4294967296 = n := Nat.mod_eq_of_lt (by omega)
  simp only [hm, if_pos h]

/-- A failing step in `runContinuationTail` leaves the slot as it was. -/
theorem runContinuationTail_slot_none (wp : Bool) (e : ContEnv) (r : ContResult)
    (hr : r.slot = none) (h : ¬ TailOkP wp e) :
    (runContinuationTail wp e r).slot = none := by
  unfold runContinuationTail
  split
  · exact hr
  · split
    · exact hr
    · split
      · exact hr
      · exfalso; apply h; unfold TailOkP; simp_all

/-- When every step succeeds the continuation ends fully wired, with the
slot populated. -/
theorem runContinuation_allOk (showOn : ShowWebview) (sp wp : Bool) (e : ContEnv)
    (h : ContAllOkP showOn sp wp e) :
    runContinuation showOn sp wp e =
      { slot := some (), settingsApplied := sp, boundsApplied := true,
        titleObserver := true, showObserver := expectedShowObserver showOn,
        closeObserver := true, messageObserver := true, initFnRun := wp } := by
  obtain ⟨h1, h2, h3, h4, h5, h6, h7, h8, h9, h10, h11⟩ := h
  unfold runContinuation runContinuationTail
  cases showOn <;> cases sp <;> cases wp <;>
    simp_all [expectedShowObserver, ContResult.initial]

set_option maxHeartbeats 1600000 in
/-- When some step fails the continuation aborts with the slot still
empty. -/
theorem runContinuation_slot_none (showOn : ShowWebview) (sp wp : Bool) (e : ContEnv)
    (h : ¬ ContAllOkP showOn sp wp e) :
    (runContinuation showOn sp wp e).slot = none := by
  cases showOn
  all_goals unfold runContinuation
  all_goals repeat' split
  all_goals try rfl
  all_goals (
    apply runContinuationTail_slot_none _ _ _ rfl
    intro hc
    apply h
    unfold ContAllOkP TailOkP at *
    simp_all)

/-- The slot is populated exactly when every continuation step succeeded. -/
theorem runContinuation_slot_some_iff (showOn : ShowWebview) (sp wp : Bool) (e : ContEnv) :
    (runContinuation showOn sp wp e).slot = some () ↔ ContAllOkP showOn sp wp e := by
  constructor
  · intro hs
    by_contra hna
    rw [runContinuation_slot_none showOn sp wp e hna] at hs
    exact Option.noConfusion hs
  · intro h
    rw [runContinuation_allOk showOn sp wp e h]

/-! ## Claims -/

/-- C5: for every value of the declared inbound message type
(`MsgFromWebView`), serializing it to the tagged JSON wire format and
parsing that string back with the inbound deserializer yields the original
value. -/
theorem c5_inbound_roundtrip (m : MsgFromWebView) :
    parseMsgFromWebView (serializeMsgFromWebView m) = some m := by
  cases m <;> rfl

/-- C8: the message-received callback is a function of the external
deserializer's outcome alone, so for every received string on which
`serde_json::from_str` fails — as it does on every non-conforming input
such as the spec's `"Garbled!"` — no message is delivered to the host's
event system (the delivered list is empty), and on every outcome whatever
it is, the callback completes successfully (both branches return `Ok`), so
a malformed message is never a fatal error. -/
theorem c8_unparseable_dropped (parsed : Option MsgFromWebView)
    (h : parsed = none) :
    onWebMessageReceived parsed = .ok [] ∧
    (∀ p : Option MsgFromWebView, ∃ msgs, onWebMessageReceived p = .ok msgs) := by
  subst h
  refine ⟨rfl, ?_⟩
  intro p
  cases p
  · exact ⟨[], rfl⟩
  · exact ⟨[_], rfl⟩

/-- Witness for C8 at the failing deserializer outcome. -/
theorem c8_unparseable_dropped_witness :
    onWebMessageReceived none = .ok [] ∧
    (∀ p : Option MsgFromWebView, ∃ msgs, onWebMessageReceived p = .ok msgs) :=
  c8_unparseable_dropped none rfl

/-- C1: on an eager handle whose controller slot is empty, `send_msg`
returns `Ok` having issued no native call (the message is dropped, nothing
is queued), while `handle_window_event` with a `Resized` or `Moved` event
whose window id matches the handle's window returns
`Error::ControllerNotCreated`. -/
theorem c1_empty_slot (w : WebViewWrapper) (m : MsgToWebView) (ev : WindowEvent)
    (window_id : WindowId) (hc : w.controller = none) (hw : window_id = w.window.id)
    (_hev : (∃ p, ev = WindowEvent.Moved p) ∨ (∃ s, ev = WindowEvent.Resized s)) :
    w.send_msg m = .ok [] ∧
    w.handle_window_event ev window_id = .error Error.ControllerNotCreated := by
  constructor
  · unfold WebViewWrapper.send_msg
    rw [hc]
  · unfold WebViewWrapper.handle_window_event WebViewWrapper.is_window
    subst hw
    simp [hc]

/-- Witness for C1: a concrete empty-slot handle, a `Resized` event. -/
theorem c1_empty_slot_witness :
    WebViewWrapper.send_msg ⟨none, ⟨0, false⟩⟩ MsgToWebView.HelloToWebview = .ok [] ∧
    WebViewWrapper.handle_window_event ⟨none, ⟨0, false⟩⟩
        (WindowEvent.Resized ⟨600, 600⟩) 0 = .error Error.ControllerNotCreated :=
  c1_empty_slot ⟨none, ⟨0, false⟩⟩ MsgToWebView.HelloToWebview
    (WindowEvent.Resized ⟨600, 600⟩) 0 rfl rfl (Or.inr ⟨⟨600, 600⟩, rfl⟩)

/-- C7: the window produced by `build` is created visible exactly when the
policy is `Immediately`, and a fresh builder defaults to
`OnNavigationCompleted`. -/
theorem c7_visibility (b : WebViewBuilder) (freshId : WindowId) (w : WebViewWrapper)
    (h : b.build_with_proxy freshId true = .ok w) :
    (w.window.visible = true ↔ b.show_on = ShowWebview.Immediately) ∧
    WebViewBuilder.new.show_on = ShowWebview.OnNavigationCompleted := by
  refine ⟨?_, rfl⟩
  unfold WebViewBuilder.build_with_proxy at h
  simp only [if_pos trivial, Except.ok.injEq] at h
  subst h
  simp

/-- Witness for C7: building with the default builder yields an invisible
window, whose policy is indeed not `Immediately`. -/
theorem c7_visibility_witness :
    ({ id := 0, visible := false } : Window).visible = true ↔
      WebViewBuilder.new.show_on = ShowWebview.Immediately :=
  (c7_visibility WebViewBuilder.new 0 ⟨none, ⟨0, false⟩⟩ rfl).1

/-- C4 counterexample: the `Resized` bounds are computed with a `u32` to
`i32` cast (`new_size.width as i32`, lib.rs lines 378-379), so at width =
height = `2^31` the rectangle issued is `(0, 0, -2^31, -2^31)`, not the
`(0, 0, 2^31, 2^31)` the claim's "right = w, bottom = h" asserts. -/
theorem c4_counterexample :
    ¬ WebViewWrapper.handle_window_event ⟨some (), ⟨0, false⟩⟩
        (WindowEvent.Resized ⟨2147483648, 2147483648⟩) 0
      = .ok [ControllerCall.putBounds ⟨0, 0, 2147483648, 2147483648⟩] ∧
    WebViewWrapper.handle_window_event ⟨some (), ⟨0, false⟩⟩
        (WindowEvent.Resized ⟨2147483648, 2147483648⟩) 0
      = .ok [ControllerCall.putBounds ⟨0, 0, -2147483648, -2147483648⟩] := by
  constructor
  · intro h
    have h2 : ([ControllerCall.putBounds ⟨0, 0, -2147483648, -2147483648⟩] :
          List ControllerCall)
        = [ControllerCall.putBounds ⟨0, 0, 2147483648, 2147483648⟩] :=
      Except.ok.inj h
    simp at h2
  · rfl

/-- C4 amended: on an eager handle, `handle_window_event` with a foreign
window id is a success no-op; with a matching id and the controller
present, `Moved` issues exactly `notify_parent_window_position_changed`,
`Resized` with size `(w, h)` issues exactly `put_bounds (0, 0, w, h)`
whenever `w` and `h` are below `2^31` (in general the rectangle holds the
`i32` reinterpretation of the 32-bit width and height), and every other
event issues no controller call and returns success. -/
theorem c4_amended_thm (w : WebViewWrapper) (ev : WindowEvent) (wid : WindowId)
    (p : PhysicalPosition) (s : PhysicalSize) (hc : w.controller = some ())
    (hwidth : s.width < 2147483648) (hheight : s.height < 2147483648)
    (hwid : wid ≠ w.window.id) :
    w.handle_window_event ev wid = .ok [] ∧
    w.handle_window_event (WindowEvent.Moved p) w.window.id
      = .ok [ControllerCall.notifyParentWindowPositionChanged] ∧
    w.handle_window_event (WindowEvent.Resized s) w.window.id
      = .ok [ControllerCall.putBounds
          { left := 0, top := 0, right := (s.width : Int), bottom := (s.height : Int) }] ∧
    w.handle_window_event WindowEvent.CloseRequested w.window.id = .ok [] ∧
    w.handle_window_event WindowEvent.Other w.window.id = .ok [] := by
  unfold WebViewWrapper.handle_window_event WebViewWrapper.is_window
  simp [hc, hwid, i32ofU32_eq_of_lt hwidth, i32ofU32_eq_of_lt hheight]

/-- Witness for amended C4, at the spec's 600 by 600 example. -/
theorem c4_amended_witness :
    WebViewWrapper.handle_window_event ⟨some (), ⟨5, true⟩⟩ WindowEvent.Other 6 = .ok [] ∧
    WebViewWrapper.handle_window_event ⟨some (), ⟨5, true⟩⟩ (WindowEvent.Moved ⟨1, 2⟩) 5
      = .ok [ControllerCall.notifyParentWindowPositionChanged] ∧
    WebViewWrapper.handle_window_event ⟨some (), ⟨5, true⟩⟩ (WindowEvent.Resized ⟨600, 600⟩) 5
      = .ok [ControllerCall.putBounds { left := 0, top := 0, right := 600, bottom := 600 }] ∧
    WebViewWrapper.handle_window_event ⟨some (), ⟨5, true⟩⟩ WindowEvent.CloseRequested 5
      = .ok [] ∧
    WebViewWrapper.handle_window_event ⟨some (), ⟨5, true⟩⟩ WindowEvent.Other 5 = .ok [] :=
  c4_amended_thm ⟨some (), ⟨5, true⟩⟩ WindowEvent.Other 6 ⟨1, 2⟩ ⟨600, 600⟩ rfl
    (by decide) (by decide) (by decide)

/-- C9 counterexample: the claim (after spec section 3) that geometry
forwarding is swallowed and `send` surfaces an explicit "controller not
yet ready" error is false on the code: at a concrete empty-slot handle,
forwarding a `Resized` event for the handle's own window returns the
`ControllerNotCreated` error, while `send_msg` returns plain success. -/
theorem c9_counterexample :
    WebViewWrapper.handle_window_event ⟨none, ⟨0, false⟩⟩
        (WindowEvent.Resized ⟨100, 100⟩) 0 = .error Error.ControllerNotCreated ∧
    ¬ (∃ err : Error, WebViewWrapper.send_msg ⟨none, ⟨0, false⟩⟩
        MsgToWebView.HelloToWebview = .error err) ∧
    WebViewWrapper.send_msg ⟨none, ⟨0, false⟩⟩ MsgToWebView.HelloToWebview = .ok [] := by
  refine ⟨rfl, ?_, rfl⟩
  rintro ⟨err, h⟩
  exact Except.noConfusion h

/-- C9 amended: with the two policies swapped to match the code (and spec
sections 4.3, 7 and 8): when the controller is not yet ready, an explicit
send succeeds silently as a dropped no-op, while forwarding a resize or
move event for the handle's own window surfaces the explicit
`ControllerNotCreated` error. -/
theorem c9_amended_thm (w : WebViewWrapper) (m : MsgToWebView) (p : PhysicalPosition)
    (s : PhysicalSize) (hc : w.controller = none) :
    w.send_msg m = .ok [] ∧
    w.handle_window_event (WindowEvent.Moved p) w.window.id
      = .error Error.ControllerNotCreated ∧
    w.handle_window_event (WindowEvent.Resized s) w.window.id
      = .error Error.ControllerNotCreated := by
  unfold WebViewWrapper.send_msg WebViewWrapper.handle_window_event WebViewWrapper.is_window
  simp [hc]

/-- Witness for amended C9. -/
theorem c9_amended_witness :
    WebViewWrapper.send_msg ⟨none, ⟨1, false⟩⟩ MsgToWebView.HelloToWebview = .ok [] ∧
    WebViewWrapper.handle_window_event ⟨none, ⟨1, false⟩⟩
        (WindowEvent.Moved ⟨3, 4⟩) 1 = .error Error.ControllerNotCreated ∧
    WebViewWrapper.handle_window_event ⟨none, ⟨1, false⟩⟩
        (WindowEvent.Resized ⟨600, 600⟩) 1 = .error Error.ControllerNotCreated :=
  c9_amended_thm ⟨none, ⟨1, false⟩⟩ MsgToWebView.HelloToWebview ⟨3, 4⟩ ⟨600, 600⟩ rfl

/-- C10 counterexample: on a Closed optional slot, `is_window` does not
report the `WebviewNotShown` error the other two delegating operations
report — it returns the plain boolean `false` (its result type has no error
at all), unlike `send_msg` at the same state. -/
theorem c10_counterexample :
    (WebViewOptional.new WebViewBuilder.new).is_window 0 = false ∧
    (WebViewOptional.new WebViewBuilder.new).send_msg MsgToWebView.HelloToWebview
      = .error Error.WebviewNotShown :=
  ⟨rfl, rfl⟩

/-- C10 amended: on a Closed optional slot, `send_msg` and `webview_with`
report the distinct `WebviewNotShown` error while `is_window` returns
`false`; when Open, each of the three delegates to the inner handle. -/
theorem c10_amended_thm (b : WebViewBuilder) (o : WebViewOptional) (v : WebViewWrapper)
    (m : MsgToWebView) (wid : WindowId) (ho : o.instance_ = some v) :
    (WebViewOptional.new b).send_msg m = .error Error.WebviewNotShown ∧
    (WebViewOptional.new b).webview_with = .error Error.WebviewNotShown ∧
    (WebViewOptional.new b).is_window wid = false ∧
    o.send_msg m = v.send_msg m ∧
    o.is_window wid = v.is_window wid ∧
    o.webview_with = v.webview_with := by
  unfold WebViewOptional.new WebViewOptional.send_msg WebViewOptional.webview_with
    WebViewOptional.is_window
  rw [ho]
  exact ⟨rfl, rfl, rfl, rfl, rfl, rfl⟩

/-- Witness for amended C10 on a concrete Open slot. -/
theorem c10_amended_witness :
    (WebViewOptional.new WebViewBuilder.new).send_msg MsgToWebView.HelloToWebview
      = .error Error.WebviewNotShown ∧
    (WebViewOptional.new WebViewBuilder.new).webview_with = .error Error.WebviewNotShown ∧
    (WebViewOptional.new WebViewBuilder.new).is_window 7 = false ∧
    WebViewOptional.send_msg ⟨WebViewBuilder.new, some ⟨none, ⟨7, false⟩⟩⟩
        MsgToWebView.HelloToWebview
      = WebViewWrapper.send_msg ⟨none, ⟨7, false⟩⟩ MsgToWebView.HelloToWebview ∧
    WebViewOptional.is_window ⟨WebViewBuilder.new, some ⟨none, ⟨7, false⟩⟩⟩ 7
      = WebViewWrapper.is_window ⟨none, ⟨7, false⟩⟩ 7 ∧
    WebViewOptional.webview_with ⟨WebViewBuilder.new, some ⟨none, ⟨7, false⟩⟩⟩
      = WebViewWrapper.webview_with ⟨none, ⟨7, false⟩⟩ :=
  c10_amended_thm WebViewBuilder.new ⟨WebViewBuilder.new, some ⟨none, ⟨7, false⟩⟩⟩
    ⟨none, ⟨7, false⟩⟩ MsgToWebView.HelloToWebview 7 rfl

/-- C3: an optional slot starts Closed and `send_msg` before any `show`
reports `WebviewNotShown`; after `show`, `is_window` is true exactly for
the created window's id; a `CloseRequested` event matching the slot's
window while Open returns the slot to Closed with success and without
forwarding the event to the inner handle (which would have reported
`ControllerNotCreated` for it); `send_msg` afterwards again reports
`WebviewNotShown`; `handle_window_event` while Closed reports
`WebviewNotShown`; any other event while Open is delegated to the inner
handle's event forwarding. -/
theorem c3_optional_lifecycle (b : WebViewBuilder) (m : MsgToWebView)
    (freshId other wid2 : WindowId) (ev ev2 : WindowEvent)
    (hother : other ≠ freshId)
    (hnotclose : ev2 ≠ WindowEvent.CloseRequested ∨ wid2 ≠ freshId) :
    (WebViewOptional.new b).instance_ = none ∧
    (WebViewOptional.new b).send_msg m = .error Error.WebviewNotShown ∧
    ((WebViewOptional.new b).show freshId).1.is_window freshId = true ∧
    ((WebViewOptional.new b).show freshId).1.is_window other = false ∧
    ((WebViewOptional.new b).show freshId).1.handle_window_event
        WindowEvent.CloseRequested freshId = (WebViewOptional.new b, .ok []) ∧
    (∀ v, ((WebViewOptional.new b).show freshId).1.instance_ = some v →
      v.handle_window_event WindowEvent.CloseRequested freshId
        = .error Error.ControllerNotCreated) ∧
    (((WebViewOptional.new b).show freshId).1.handle_window_event
        WindowEvent.CloseRequested freshId).1.send_msg m
      = .error Error.WebviewNotShown ∧
    (WebViewOptional.new b).handle_window_event ev wid2
      = (WebViewOptional.new b, .error Error.WebviewNotShown) ∧
    (∀ v, ((WebViewOptional.new b).show freshId).1.instance_ = some v →
      ((WebViewOptional.new b).show freshId).1.handle_window_event ev2 wid2
        = (((WebViewOptional.new b).show freshId).1, v.handle_window_event ev2 wid2)) := by
  refine ⟨rfl, rfl, ?_, ?_, ?_, ?_, ?_, rfl, ?_⟩
  · simp [WebViewOptional.new, WebViewOptional.show, WebViewBuilder.build_with_proxy,
      WebViewOptional.is_window, WebViewWrapper.is_window]
  · simp [WebViewOptional.new, WebViewOptional.show, WebViewBuilder.build_with_proxy,
      WebViewOptional.is_window, WebViewWrapper.is_window, hother]
  · simp [WebViewOptional.new, WebViewOptional.show, WebViewBuilder.build_with_proxy,
      WebViewOptional.handle_window_event, WebViewWrapper.is_window]
  · intro v hv
    simp only [WebViewOptional.new, WebViewOptional.show, WebViewBuilder.build_with_proxy,
      if_pos trivial, Option.some.injEq] at hv
    subst hv
    simp [WebViewWrapper.handle_window_event, WebViewWrapper.is_window]
  · simp [WebViewOptional.new, WebViewOptional.show, WebViewBuilder.build_with_proxy,
      WebViewOptional.handle_window_event, WebViewOptional.send_msg,
      WebViewWrapper.is_window]
  · intro v hv
    simp only [WebViewOptional.new, WebViewOptional.show, WebViewBuilder.build_with_proxy,
      if_pos trivial, Option.some.injEq] at hv
    unfold WebViewOptional.handle_window_event
    simp only [WebViewOptional.new, WebViewOptional.show, WebViewBuilder.build_with_proxy,
      if_pos trivial]
    rw [if_neg]
    · rw [← hv]
    · rintro ⟨hwin, hclose⟩
      rcases hnotclose with h | h
      · exact h hclose
      · simp [WebViewWrapper.is_window] at hwin
        exact h hwin

/-- Witness for C3 at a concrete builder and window ids. -/
theorem c3_optional_lifecycle_witness :
    (WebViewOptional.new WebViewBuilder.new).instance_ = none ∧
    (WebViewOptional.new WebViewBuilder.new).send_msg MsgToWebView.HelloToWebview
      = .error Error.WebviewNotShown ∧
    ((WebViewOptional.new WebViewBuilder.new).show 3).1.is_window 3 = true ∧
    ((WebViewOptional.new WebViewBuilder.new).show 3).1.is_window 4 = false ∧
    ((WebViewOptional.new WebViewBuilder.new).show 3).1.handle_window_event
        WindowEvent.CloseRequested 3 = (WebViewOptional.new WebViewBuilder.new, .ok []) ∧
    (∀ v, ((WebViewOptional.new WebViewBuilder.new).show 3).1.instance_ = some v →
      v.handle_window_event WindowEvent.CloseRequested 3
        = .error Error.ControllerNotCreated) ∧
    (((WebViewOptional.new WebViewBuilder.new).show 3).1.handle_window_event
        WindowEvent.CloseRequested 3).1.send_msg MsgToWebView.HelloToWebview
      = .error Error.WebviewNotShown ∧
    (WebViewOptional.new WebViewBuilder.new).handle_window_event WindowEvent.Other 9
      = (WebViewOptional.new WebViewBuilder.new, .error Error.WebviewNotShown) ∧
    (∀ v, ((WebViewOptional.new WebViewBuilder.new).show 3).1.instance_ = some v →
      ((WebViewOptional.new WebViewBuilder.new).show 3).1.handle_window_event
          WindowEvent.Other 9
        = (((WebViewOptional.new WebViewBuilder.new).show 3).1,
           v.handle_window_event WindowEvent.Other 9)) :=
  c3_optional_lifecycle WebViewBuilder.new MsgToWebView.HelloToWebview 3 4 9
    WindowEvent.Other WindowEvent.Other (by decide) (Or.inl (by decide))

/-- C6: the optional slot is always in exactly one of the two states Closed
or Open; `show` while Open raises the existing window and builds nothing
(the state, hence the window identity, is unchanged, so two `show` calls
without an intervening close observe the same window id); `show` while
Closed clones the stored configuration and builds an entirely fresh handle
through `build_with_proxy` (new window id, empty controller slot). -/
theorem c6_show_reuse (b : WebViewBuilder) (o : WebViewOptional) (v : WebViewWrapper)
    (freshId wid2 : WindowId) (ho : o.instance_ = some v) :
    (o.instance_ = none ∨ ∃ u, o.instance_ = some u) ∧
    o.show wid2 = (o, ShowEffect.raisedExistingWindow) ∧
    ((WebViewOptional.new b).show freshId).1.instance_
      = (b.build_with_proxy freshId true).toOption ∧
    ((WebViewOptional.new b).show freshId).1.instance_.map (fun w => w.window.id)
      = some freshId ∧
    ((WebViewOptional.new b).show freshId).1.instance_.map (fun w => w.controller)
      = some none ∧
    (((WebViewOptional.new b).show freshId).1.show wid2).1.instance_.map
        (fun w => w.window.id) = some freshId ∧
    (((WebViewOptional.new b).show freshId).1.show wid2).2
      = ShowEffect.raisedExistingWindow := by
  refine ⟨Or.inr ⟨v, ho⟩, ?_, ?_, ?_, ?_, ?_, ?_⟩ <;>
    simp [WebViewOptional.new, WebViewOptional.show, WebViewBuilder.build_with_proxy, ho,
      Except.toOption]

/-- Witness for C6 on a concrete Open slot. -/
theorem c6_show_reuse_witness :
    (WebViewOptional.instance_ ⟨WebViewBuilder.new, some ⟨none, ⟨2, false⟩⟩⟩ = none ∨
      ∃ u, WebViewOptional.instance_ ⟨WebViewBuilder.new, some ⟨none, ⟨2, false⟩⟩⟩
        = some u) ∧
    WebViewOptional.show ⟨WebViewBuilder.new, some ⟨none, ⟨2, false⟩⟩⟩ 8
      = (⟨WebViewBuilder.new, some ⟨none, ⟨2, false⟩⟩⟩, ShowEffect.raisedExistingWindow) ∧
    ((WebViewOptional.new WebViewBuilder.new).show 2).1.instance_
      = (WebViewBuilder.new.build_with_proxy 2 true).toOption ∧
    ((WebViewOptional.new WebViewBuilder.new).show 2).1.instance_.map
        (fun w => w.window.id) = some 2 ∧
    ((WebViewOptional.new WebViewBuilder.new).show 2).1.instance_.map
        (fun w => w.controller) = some none ∧
    (((WebViewOptional.new WebViewBuilder.new).show 2).1.show 8).1.instance_.map
        (fun w => w.window.id) = some 2 ∧
    (((WebViewOptional.new WebViewBuilder.new).show 2).1.show 8).2
      = ShowEffect.raisedExistingWindow :=
  c6_show_reuse WebViewBuilder.new ⟨WebViewBuilder.new, some ⟨none, ⟨2, false⟩⟩⟩
    ⟨none, ⟨2, false⟩⟩ 2 8 rfl

/-- C2: every failure inside the asynchronous controller-creation
continuation aborts it with the shared controller slot still empty, and
the slot is populated exactly when every setup step succeeded — a
populated slot is therefore always fully wired (settings applied when
declared, bounds applied, title/close/message observers registered, the
deferred-visibility observer registered for the non-`Immediately`
policies, the init function run when declared), so `send_msg` and
`handle_window_event`, which observe the controller only through the
slot, never see a partially wired controller; and the synchronous result
handed to the caller of `build` is the same whatever the continuation's
outcomes are. -/
theorem c2_continuation_atomicity (b : WebViewBuilder) (freshId : WindowId)
    (e e2 : ContEnv) :
    ((runContinuation b.show_on b.settings_fn b.webview_fn e).slot = some () ↔
      ContAllOkP b.show_on b.settings_fn b.webview_fn e) ∧
    ((runContinuation b.show_on b.settings_fn b.webview_fn e).slot = some () →
      (runContinuation b.show_on b.settings_fn b.webview_fn e).titleObserver = true ∧
      (runContinuation b.show_on b.settings_fn b.webview_fn e).closeObserver = true ∧
      (runContinuation b.show_on b.settings_fn b.webview_fn e).messageObserver = true ∧
      (runContinuation b.show_on b.settings_fn b.webview_fn e).boundsApplied = true ∧
      (b.settings_fn = true →
        (runContinuation b.show_on b.settings_fn b.webview_fn e).settingsApplied = true) ∧
      (b.webview_fn = true →
        (runContinuation b.show_on b.settings_fn b.webview_fn e).initFnRun = true) ∧
      (b.show_on ≠ ShowWebview.Immediately →
        (runContinuation b.show_on b.settings_fn b.webview_fn e).showObserver = true)) ∧
    (buildAndContinuation b freshId e).1 = (buildAndContinuation b freshId e2).1 := by
  refine ⟨runContinuation_slot_some_iff _ _ _ e, ?_, rfl⟩
  intro hs
  have hok := (runContinuation_slot_some_iff _ _ _ e).1 hs
  rw [runContinuation_allOk _ _ _ e hok]
  refine ⟨rfl, rfl, rfl, rfl, fun h => h, fun h => h, ?_⟩
  intro hne
  cases hb : b.show_on
  · exact absurd hb hne
  · rfl
  · rfl

/-- Witness for C2: the default builder with the all-successful
environment populates the slot; with a failing controller-creation step
the slot stays empty; the value returned by `build` is the same in both
environments. -/
theorem c2_continuation_atomicity_witness :
    (runContinuation WebViewBuilder.new.show_on WebViewBuilder.new.settings_fn
        WebViewBuilder.new.webview_fn
        ⟨true, true, true, true, true, true, true, true, true, true, true, true⟩).slot
      = some () ∧
    (buildAndContinuation WebViewBuilder.new 0
        ⟨true, true, true, true, true, true, true, true, true, true, true, true⟩).1
      = (buildAndContinuation WebViewBuilder.new 0
        ⟨true, false, true, true, true, true, true, true, true, true, true, true⟩).1 :=
  ⟨((c2_continuation_atomicity WebViewBuilder.new 0
      ⟨true, true, true, true, true, true, true, true, true, true, true, true⟩
      ⟨true, false, true, true, true, true, true, true, true, true, true, true⟩).1).mpr
      (by refine ⟨rfl, rfl, rfl, ?_, rfl, rfl, ?_, ?_, rfl, rfl, ?_⟩ <;> intro h <;>
        first | exact ⟨rfl, rfl⟩ | rfl),
   (c2_continuation_atomicity WebViewBuilder.new 0
      ⟨true, true, true, true, true, true, true, true, true, true, true, true⟩
      ⟨true, false, true, true, true, true, true, true, true, true, true, true⟩).2.2⟩

end WebviewBuilderWin
